import Mathlib

/-!
Verification of the multi-brand chatbot service (chatkit-agent): a shallow
embedding of the cost calculator, user upsert, message ordinal assignment,
email idempotence, session teardown, the chat retry/fallback flow, the
markdown-to-HTML transform, the session-inspection endpoint and session
rehydration, each translated from `database.py` / `main.py`, together with
theorems settling the specification's claims about them.

Conventions of the embedding:
* MySQL tables become Lean lists of row structures; `aiomysql` plumbing
  (connection pool, cursors) is elided, only the statements' effects are kept.
* Python `Decimal` arithmetic in `calculate_token_cost` is exact at the
  magnitudes involved (default 28-digit context); monetary values are
  embedded as integers counting micro-dollars (10^-6 dollars), and a price
  `p` with `scale` decimal digits is the integer `p * 10 ^ scale`.
  `Decimal.quantize(Decimal('0.000001'))` with the default `ROUND_HALF_EVEN`
  becomes `halfEvenRound` below.
* `datetime` values become abstract `Nat` timestamps.
* SMTP I/O is an oracle `Nat → SmtpOutcome` giving the outcome of each
  attempted delivery; fire-and-forget analytics writes are not modelled, as
  no claim concerns them.
-/

namespace ChatkitAgent

/-! ## Cost calculator (`database.py`, `DatabaseHandler.calculate_token_cost`) -/

/-- A row of the `models` pricing table (only active rows are returned by
`get_model_pricing`).  Prices are integers scaled by `10 ^ scale`: the
Decimal price per million tokens is `price / 10 ^ scale`. -/
structure ModelPricing where
  input_price_per_million : ℕ
  cached_input_price_per_million : ℕ
  output_price_per_million : ℕ
  scale : ℕ
deriving Repr, DecidableEq

/-- Round `n / d` to the nearest integer, ties to even: the behaviour of
`Decimal.quantize` under the default `ROUND_HALF_EVEN` for non-negative
values (here `n / d` is the exact cost expressed in micro-dollars). -/
def halfEvenRound (n d : ℕ) : ℕ :=
  let q := n / d
  let r := n % d
  if 2 * r < d then q
  else if d < 2 * r then q + 1
  else if q % 2 = 0 then q else q + 1

/-- The input price `calculate_token_cost` uses: the cached-input price
when `use_cached`, else the regular input price. -/
def effective_input_price (pricing : ModelPricing) (use_cached : Bool) : ℕ :=
  if use_cached then pricing.cached_input_price_per_million
  else pricing.input_price_per_million

/-- The arithmetic core of `calculate_token_cost` once a pricing row is in
hand: exact Decimal products `(tokens / 1_000_000) * price_per_million`,
the exact sum, then each quantized to 6 decimal places.  In micro-dollar
units the exact input cost is `(input_tokens * input_price) / 10 ^ scale`,
so quantizing is `halfEvenRound` by `10 ^ scale`. -/
def computeCost (pricing : ModelPricing) (input_tokens output_tokens : ℕ)
    (use_cached : Bool) : ℕ × ℕ × ℕ :=
  let input_price := effective_input_price pricing use_cached
  let output_price := pricing.output_price_per_million
  let d := 10 ^ pricing.scale
  (halfEvenRound (input_tokens * input_price) d,
   halfEvenRound (output_tokens * output_price) d,
   halfEvenRound (input_tokens * input_price + output_tokens * output_price) d)

/-- `DatabaseHandler.calculate_token_cost` (database.py:556-594).
`models` is the pricing lookup (`get_model_pricing`, active rows only).
A missing model falls back to the `'gpt-4.1-nano'` row; if that is also
missing the result is `(0, 0, 0)`. -/
def calculate_token_cost (models : String → Option ModelPricing)
    (input_tokens output_tokens : ℕ) (model_name : String)
    (use_cached : Bool) : ℕ × ℕ × ℕ :=
  match models model_name with
  | some pricing => computeCost pricing input_tokens output_tokens use_cached
  | none =>
    match models "gpt-4.1-nano" with
    | some pricing => computeCost pricing input_tokens output_tokens use_cached
    | none => (0, 0, 0)

/-- The pricing row of the C1 counterexample: 0.1 dollars per million
tokens for input and output (scale 6: the integer 100000 stands for
`Decimal('0.100000')`). -/
def cexPricing : ModelPricing :=
  ⟨100000, 100000, 100000, 6⟩

/-- The pricing environment of the C1 counterexample: one active model
`"m"` priced by `cexPricing`. -/
def cexModels : String → Option ModelPricing := fun name =>
  if name = "m" then some cexPricing else none

/-- A pricing row for the C2 witness (prices with 3 decimal digits). -/
def c2Pricing : ModelPricing :=
  ⟨200, 150, 400, 3⟩

/-- A pricing environment for the C2 witness: only the default model
`'gpt-4.1-nano'` has a row. -/
def c2Models : String → Option ModelPricing := fun name =>
  if name = "gpt-4.1-nano" then some c2Pricing else none

/-! ## User upsert (`database.py`, `DatabaseHandler.get_or_create_user`) -/

/-- The `user_data` dict passed to `get_or_create_user`: each profile field
is a nullable value (`user_data.get(...)` is `None` when absent). -/
structure UserData where
  name : Option String
  phone : Option String
  business_name : Option String
  website : Option String
  location : Option String
  ip_address : Option String
  city : Option String
  region : Option String
  country : Option String
deriving Repr, DecidableEq

/-- A row of the `users` table (the columns `get_or_create_user` touches;
`first_seen`/`last_seen` timestamps are not modelled, no claim reads them). -/
structure UserRow where
  id : ℕ
  email : String
  name : Option String
  phone : Option String
  business_name : Option String
  website : Option String
  location : Option String
  ip_address : Option String
  city : Option String
  region : Option String
  country : Option String
  total_conversations : ℕ
deriving Repr, DecidableEq

/-- SQL `COALESCE(v, stored)`: the provided value when non-null, else the
stored one. -/
def coalesce (v stored : Option String) : Option String :=
  match v with
  | some x => some x
  | none => stored

/-- The `UPDATE users SET ... = COALESCE(%s, ...) ,
total_conversations = total_conversations + 1` statement applied to one row. -/
def updateUserRow (row : UserRow) (ud : UserData) : UserRow :=
  { row with
    name := coalesce ud.name row.name
    phone := coalesce ud.phone row.phone
    business_name := coalesce ud.business_name row.business_name
    website := coalesce ud.website row.website
    location := coalesce ud.location row.location
    ip_address := coalesce ud.ip_address row.ip_address
    city := coalesce ud.city row.city
    region := coalesce ud.region row.region
    country := coalesce ud.country row.country
    total_conversations := row.total_conversations + 1 }

/-- The `INSERT INTO users (...) VALUES (..., 1)` statement: a fresh row
with the provided fields and `total_conversations = 1`. -/
def insertUserRow (id : ℕ) (email : String) (ud : UserData) : UserRow :=
  { id := id, email := email, name := ud.name, phone := ud.phone
    business_name := ud.business_name, website := ud.website
    location := ud.location, ip_address := ud.ip_address, city := ud.city
    region := ud.region, country := ud.country, total_conversations := 1 }

/-- `DatabaseHandler.get_or_create_user` (database.py:99-156).
`next_id` is the id MySQL would assign to a newly inserted row
(`cursor.lastrowid`).  Returns the user id and the updated table. -/
def get_or_create_user (users : List UserRow) (next_id : ℕ) (email : String)
    (ud : UserData) : ℕ × List UserRow :=
  match users.find? (fun r => r.email == email) with
  | some r =>
    (r.id, users.map (fun row => if row.id == r.id then updateUserRow row ud else row))
  | none => (next_id, users ++ [insertUserRow next_id email ud])

/-! ## Messages and ordinals (`database.py`, `add_message_with_cost`,
`_add_message_task`) -/

/-- A row of the `messages` table.  Costs are micro-dollar integers as for
the calculator. -/
structure MessageRow where
  session_id : ℕ
  role : String
  content : String
  formatted_content : Option String
  content_type : String
  file_name : Option String
  file_size : Option ℕ
  input_tokens : ℕ
  output_tokens : ℕ
  total_tokens : ℕ
  input_cost : ℕ
  output_cost : ℕ
  total_cost : ℕ
  message_order : ℕ
deriving Repr, DecidableEq

/-- `SELECT COALESCE(MAX(message_order), 0) + 1 FROM messages WHERE
session_id = %s`: the ordinal assigned to the next message of a session
(both `add_message_with_cost` and `_add_message_task` issue this query). -/
def next_message_order (messages : List MessageRow) (session_id : ℕ) : ℕ :=
  (((messages.filter (fun m => m.session_id == session_id)).map
      (fun m => m.message_order)).foldr max 0) + 1

/-- `DatabaseHandler.add_message_with_cost` (database.py:663-729): computes
the per-message cost, assigns the next ordinal of the session and inserts
the row.  The parent session's message-count increments touch the
`sessions` table and are not modelled here (no claim reads them). -/
def add_message_with_cost (models : String → Option ModelPricing)
    (messages : List MessageRow) (session_id : ℕ) (role content : String)
    (formatted_content : Option String) (content_type : String)
    (file_name : Option String) (file_size : Option ℕ)
    (input_tokens output_tokens : ℕ) (model_name : String) : List MessageRow :=
  let costs := calculate_token_cost models input_tokens output_tokens model_name false
  let message_order := next_message_order messages session_id
  messages ++ [{ session_id := session_id, role := role, content := content
                 formatted_content := formatted_content
                 content_type := content_type, file_name := file_name
                 file_size := file_size, input_tokens := input_tokens
                 output_tokens := output_tokens
                 total_tokens := input_tokens + output_tokens
                 input_cost := costs.1, output_cost := costs.2.1
                 total_cost := costs.2.2, message_order := message_order }]

/-! ## In-memory conversation session (`main.py`, `ConversationSession`) -/

/-- `UserContext` (main.py:56-63). -/
structure UserContext where
  name : Option String
  email : Option String
  phone : Option String
  business_name : Option String
  website : Option String
  location : Option String
deriving Repr, DecidableEq

/-- `UserLocation` (main.py:66-71). -/
structure UserLocation where
  ip : Option String
  city : Option String
  region : Option String
  country : Option String
deriving Repr, DecidableEq

/-- One part of a conversation-history item's `content` list:
`{"type": ..., "text": ...}`. -/
structure HistoryContentPart where
  type : String
  text : String
deriving Repr, DecidableEq

/-- One conversation-history item: `{"role": ..., "content": [...]}`. -/
structure HistoryItem where
  role : String
  content : List HistoryContentPart
deriving Repr, DecidableEq

/-- `ConversationSession` (main.py:74-99).  Monetary totals are exact
rationals standing for the Python floats (the claims below only concern
their zero defaults, where float and exact arithmetic agree);
`datetime` fields are abstract `Nat` timestamps. -/
structure ConversationSession where
  session_id : String
  session_db_id : Option ℕ
  brand : String
  brand_id : Option ℕ
  user_id : Option ℕ
  user_context : UserContext
  user_location : UserLocation
  conversation_history : List HistoryItem
  created_at : ℕ
  last_activity : ℕ
  email_sent : Bool
  contact_ask_count : ℕ
  last_token_usage : ℕ
  last_input_tokens : ℕ
  last_output_tokens : ℕ
  total_input_tokens : ℕ
  total_output_tokens : ℕ
  model_name : String
  last_input_cost : ℚ
  last_output_cost : ℚ
  last_total_cost : ℚ
  total_input_cost : ℚ
  total_output_cost : ℚ
  total_cost : ℚ
deriving Repr, DecidableEq

/-- A `ConversationSession` built with only `session_id` given, every other
field from its pydantic default (`now` stands for `datetime.now()`). -/
def defaultConversationSession (session_id : String) (now : ℕ) :
    ConversationSession :=
  { session_id := session_id, session_db_id := none, brand := "gbpseo"
    brand_id := none, user_id := none
    user_context := ⟨none, none, none, none, none, none⟩
    user_location := ⟨none, none, none, none⟩
    conversation_history := [], created_at := now, last_activity := now
    email_sent := false, contact_ask_count := 0, last_token_usage := 0
    last_input_tokens := 0, last_output_tokens := 0, total_input_tokens := 0
    total_output_tokens := 0, model_name := "gpt-4.1-nano"
    last_input_cost := 0, last_output_cost := 0, last_total_cost := 0
    total_input_cost := 0, total_output_cost := 0, total_cost := 0 }

/-- A row of the `sessions` table as `SELECT *` returns it (the columns the
routes read; timestamps abstract, costs in micro-dollars). -/
structure DbSessionRow where
  id : ℕ
  session_id : String
  brand_id : ℕ
  user_id : Option ℕ
  status : String
  message_count : ℕ
  email_sent : Bool
  started_at : ℕ
  last_input_tokens : ℕ
  last_output_tokens : ℕ
  last_token_usage : ℕ
  total_input_tokens : ℕ
  total_output_tokens : ℕ
  total_tokens : ℕ
  input_cost : ℕ
  output_cost : ℕ
  total_cost : ℕ
deriving Repr, DecidableEq

/-- The replay of one stored message into a history item
(`get_or_create_session`, main.py:342-346). -/
def replayMessage (m : MessageRow) : HistoryItem :=
  { role := m.role
    content := [{ type := if m.role == "user" then "input_text" else "output_text"
                  text := m.content }] }

/-- The DB-hit branch of `get_or_create_session` (main.py:329-349): a
`ConversationSession` is constructed from scratch with only `session_id`,
`session_db_id`, `brand`, `brand_id` and `user_id` supplied, then the
stored messages are replayed into `conversation_history`.  `messages` is
what `get_session_messages` returned for the row. -/
def rehydrate_session (session_id brand : String) (db_session : DbSessionRow)
    (messages : List MessageRow) (now : ℕ) : ConversationSession :=
  let session :=
    { defaultConversationSession session_id now with
      session_db_id := some db_session.id
      brand := brand
      brand_id := some db_session.brand_id
      user_id := db_session.user_id }
  { session with
    conversation_history := session.conversation_history ++ messages.map replayMessage }

/-! ## Email sending (`main.py`, `send_conversation_email`) -/

/-- Outcome of one iteration of the SMTP retry loop (connect, login,
`send_message`, `quit`).  `sent` is the only outcome on which the loop
body reaches `return True`.  Each error outcome carries whether
`send_message` had already completed — and so a message was dispatched —
before the exception was raised: the source calls `server.quit()` after
`send_message` and before setting `session.email_sent` (main.py:693-696),
so e.g. `quit()` raising `SMTPServerDisconnected` after a successful send
is an `smtp_error true` attempt. -/
inductive SmtpOutcome where
  | sent
  | auth_error (dispatched : Bool)
  | smtp_error (dispatched : Bool)
  | other_error (dispatched : Bool)
deriving Repr, DecidableEq

/-- How many messages one attempt put on the wire. -/
def outcome_dispatches : SmtpOutcome → ℕ
  | .sent => 1
  | .auth_error dispatched => if dispatched then 1 else 0
  | .smtp_error dispatched => if dispatched then 1 else 0
  | .other_error dispatched => if dispatched then 1 else 0

/-- An attempt that either dispatched nothing or completed cleanly after
dispatching (no exception between `send_message` and `return True`). -/
def smtp_clean : SmtpOutcome → Bool
  | .sent => true
  | .auth_error dispatched => !dispatched
  | .smtp_error dispatched => !dispatched
  | .other_error dispatched => !dispatched

/-- The `for attempt in range(max_retries)` loop of
`send_conversation_email` (main.py:675-733).  `env attempt` is the outcome
of the SMTP attempt with that index; `remaining` counts the loop iterations
left (`max_retries - attempt`).  Returns whether an attempt ran to
completion and the trace of outcomes of the attempts actually performed.
A completed attempt returns `True` at once; an `SMTPAuthenticationError`
breaks without retrying; other `SMTPException`s and unexpected errors —
including ones raised after `send_message` has dispatched, such as from
`server.quit()` — retry only while `attempt < max_retries - 1`. -/
def email_retry_loop (env : ℕ → SmtpOutcome) :
    ℕ → ℕ → Bool × List SmtpOutcome
  | _, 0 => (false, [])
  | attempt, remaining + 1 =>
    match env attempt with
    | .sent => (true, [.sent])
    | .auth_error dispatched => (false, [.auth_error dispatched])
    | .smtp_error dispatched =>
      if remaining > 0 then
        let r := email_retry_loop env (attempt + 1) remaining
        (r.1, .smtp_error dispatched :: r.2)
      else (false, [.smtp_error dispatched])
    | .other_error dispatched =>
      if remaining > 0 then
        let r := email_retry_loop env (attempt + 1) remaining
        (r.1, .other_error dispatched :: r.2)
      else (false, [.other_error dispatched])

/-- How many messages a trace of attempt outcomes put on the wire. -/
def dispatch_count (trace : List SmtpOutcome) : ℕ :=
  (trace.map outcome_dispatches).sum

/-- `send_conversation_email` (main.py:450-733) at the level the claims
concern: the `email_sent` guard, the retry loop (`max_retries = 3`) and the
flag update on success.  The HTML rendering and the fire-and-forget
`log_email_send` write have no bearing on any claim and are elided.
Returns the boolean the route sees, the trace of SMTP attempts performed,
and the session as the call leaves it. -/
def send_conversation_email (session : ConversationSession)
    (env : ℕ → SmtpOutcome) : Bool × List SmtpOutcome × ConversationSession :=
  if session.email_sent then (true, [], session)
  else
    let r := email_retry_loop env 0 3
    (r.1, r.2, if r.1 then { session with email_sent := true } else session)

/-! ## Session teardown (`main.py`, `end_session` route) -/

/-- The JSON body `end_session` returns. -/
structure EndSessionResult where
  status : String
  email_sent : Bool
  message : String
deriving Repr, DecidableEq

/-- The process state `end_session` touches: the in-memory registry
`active_sessions` and, of the database, the trace of
`db_handler.end_session` calls (session_id of the updated row and the
`email_sent` value written). -/
structure ServerState where
  active_sessions : String → Option ConversationSession
  db_ended : List (String × Bool)

/-- The `/api/end-session` route (main.py:1170-1277), for a request body
holding only `session_id` (the optional `user_info` / `user_location`
merges and the fire-and-forget analytics updates do not bear on any claim
and are elided).  Returns the response body, the new state, and the number
of emails dispatched over SMTP during the call. -/
def end_session (st : ServerState) (session_id : String)
    (env : ℕ → SmtpOutcome) : EndSessionResult × ServerState × ℕ :=
  match st.active_sessions session_id with
  | none =>
    ({ status := "success", email_sent := false
       message := "Session already ended" }, st, 0)
  | some session =>
    if session.conversation_history.length < 3 then
      ({ status := "success", email_sent := false
         message := "Insufficient messages for email" },
       { active_sessions := fun k =>
           if k == session_id then none else st.active_sessions k
         db_ended := st.db_ended ++ [(session.session_id, false)] }, 0)
    else
      let r := send_conversation_email session env
      ({ status := "success", email_sent := r.1
         message := if r.1 then "Session ended successfully"
                    else "Session ended but email failed" },
       { active_sessions := fun k =>
           if k == session_id then none else st.active_sessions k
         db_ended := st.db_ended ++ [(session.session_id, r.1)] },
       dispatch_count r.2.1)

/-! ## Chat retry and fallback (`main.py`, `chat` route) -/

/-- The `BRAND_NAMES` dict (main.py:307-310). -/
def BRAND_NAMES (brand : String) : Option String :=
  if brand = "gbpseo" then some "GBPSEO"
  else if brand = "whitedigital" then some "whiteDigital"
  else none

/-- `BRAND_NAMES.get(brand, brand.upper())`. -/
def brand_display (brand : String) : String :=
  (BRAND_NAMES brand).getD brand.toUpper

/-- The brand-specific canned fallback text substituted when the response
is still degenerate after the retry (main.py:1063-1071). -/
def fallback_response (brand : String) : String :=
  if brand == "whitedigital" then
    "Thank you for your message. I\x27m here to help you with PPC advertising and digital marketing services from "
      ++ brand_display brand
      ++ ". Could you please rephrase your question or let me know what specific information you\x27re looking for about our services?"
  else
    "Thank you for your message. I\x27m here to help you with Google Business Profile optimization from "
      ++ brand_display brand
      ++ ". Could you please rephrase your question or let me know what specific information you\x27re looking for about our services?"

/-- The agent-invocation loop of the `chat` route (main.py:888-1061,
`max_attempts = 2`), for runs where each invocation yields an extracted,
cleaned response text (`texts k` is that text for invocation `k`; the
exception path does not bear on the claim).  A text shorter than 10
characters on a non-final attempt triggers one retry.  Returns the final
`response_text` and how many agent invocations were made. -/
def chat_response_loop (texts : ℕ → String) : String × ℕ :=
  let r0 := texts 0
  if r0.length < 10 then (texts 1, 2) else (r0, 1)

/-- The post-loop fallback guard (main.py:1063-1071): `if not response_text
or len(response_text) < 10` (a Python string is falsy exactly when empty),
substitute the canned brand message. -/
def chat_final_response (brand : String) (texts : ℕ → String) : String :=
  let response_text := (chat_response_loop texts).1
  if response_text = "" ∨ response_text.length < 10 then
    fallback_response brand
  else response_text

/-! ## Markdown-to-HTML transform (`main.py`, `format_markdown_to_html`) -/

/-- Python `str.strip()` whitespace (ASCII): space, tab, newline, carriage
return, vertical tab, form feed. -/
def isPyWhitespace (c : Char) : Bool :=
  c == ' ' || c == '\t' || c == '\n' || c == '\r' || c == '\x0b' || c == '\x0c'

/-- Python `str.strip()` on a character list. -/
def pyStripChars (cs : List Char) : List Char :=
  ((cs.dropWhile isPyWhitespace).reverse.dropWhile isPyWhitespace).reverse

/-- Python `str.strip()`. -/
def pyStrip (s : String) : String :=
  ⟨pyStripChars s.toList⟩

/-- Python `str.split('\n')` on a character list: the segments between
newlines, keeping empty segments (`"".split('\n') == ['']`). -/
def splitNl : List Char → List (List Char)
  | [] => [[]]
  | '\n' :: rest => [] :: splitNl rest
  | c :: rest =>
    match splitNl rest with
    | [] => [[c]]
    | l :: ls => (c :: l) :: ls

/-- The lazy search for the closing `**` of `re.sub(r'\*\*(.+?)\*\*', ...)`
after an opening `**` has been consumed: the shortest non-empty run of
non-newline characters followed by `**` (the `.` of `re` does not match a
newline).  Returns the captured run and the characters after the closing
`**`. -/
def boldFindClose : List Char → Option (List Char × List Char)
  | [] => none
  | c :: rest =>
    if c = '\n' then none
    else if rest.take 2 = ['*', '*'] then some ([c], rest.drop 2)
    else
      match boldFindClose rest with
      | some (content, after) => some (c :: content, after)
      | none => none

/-- One left-to-right pass of `re.sub(r'\*\*(.+?)\*\*',
r'<strong>\1</strong>', text)`: at each position, an opening `**` with a
lazy closing match is replaced and scanning resumes after the match;
otherwise one character is emitted.  `fuel` only bounds the recursion and
each step consumes at least one character, so `fuel = length` is enough. -/
def boldSub (fuel : ℕ) (cs : List Char) : List Char :=
  match fuel, cs with
  | 0, cs => cs
  | _ + 1, [] => []
  | fuel + 1, '*' :: '*' :: rest =>
    match boldFindClose rest with
    | some (content, after) =>
      "<strong>".toList ++ content ++ "</strong>".toList ++ boldSub fuel after
    | none => '*' :: boldSub fuel ('*' :: rest)
  | fuel + 1, c :: rest => c :: boldSub fuel rest

/-- The bold substitution applied to a string. -/
def apply_bold (s : String) : String :=
  ⟨boldSub s.toList.length s.toList⟩

/-- `re.match(r'^\d+\.\s', stripped)`: one or more digits, a dot, one
whitespace character. -/
def startsDigitDotWs (s : List Char) : Bool :=
  let digits := s.takeWhile Char.isDigit
  match s.dropWhile Char.isDigit with
  | '.' :: c :: _ => !digits.isEmpty && isPyWhitespace c
  | _ => false

/-- `re.sub(r'^\d+\.\s', '', stripped)`: drop the leading digits, the dot
and one whitespace character when the anchor matches. -/
def removeOlMarker (s : List Char) : List Char :=
  if startsDigitDotWs s then (s.dropWhile Char.isDigit).drop 2 else s

/-- The body of the `for line in lines` loop of `format_markdown_to_html`
(main.py:402-431), on the line's characters.  The accumulator carries
`formatted_lines` and the `in_list`/`list_type` pair (`none` when not
inside a list).  `stripped.startswith('- ')` is the character-level check
that the stripped line begins with those two characters. -/
def processLine (st : List String × Option String) (line : List Char) :
    List String × Option String :=
  let acc := st.1
  let in_list := st.2
  let stripped := pyStripChars line
  if stripped.take 2 = ['-', ' '] || stripped.take 2 = ['*', ' '] then
    let acc :=
      match in_list with
      | some "ul" => acc
      | some t => acc ++ ["</" ++ t ++ ">", "<ul>"]
      | none => acc ++ ["<ul>"]
    (acc ++ ["<li>" ++ (⟨stripped.drop 2⟩ : String) ++ "</li>"], some "ul")
  else if startsDigitDotWs stripped then
    let acc :=
      match in_list with
      | some "ol" => acc
      | some t => acc ++ ["</" ++ t ++ ">", "<ol>"]
      | none => acc ++ ["<ol>"]
    let clean_text : String := ⟨removeOlMarker stripped⟩
    (acc ++ ["<li>" ++ clean_text ++ "</li>"], some "ol")
  else
    let acc :=
      match in_list with
      | some t => acc ++ ["</" ++ t ++ ">"]
      | none => acc
    if stripped ≠ [] then
      (acc ++ ["<p>" ++ (⟨stripped⟩ : String) ++ "</p>"], none)
    else (acc ++ ["<br>"], none)

/-- `format_markdown_to_html` (main.py:393-436): the bold substitution,
then the line loop over `text.split('\n')`, closing a dangling list, and
`'\n'.join(...)`. -/
def format_markdown_to_html (text : String) : String :=
  let text := apply_bold text
  let lines := splitNl text.toList
  let folded := lines.foldl processLine ([], none)
  let formatted_lines :=
    match folded.2 with
    | some t => folded.1 ++ ["</" ++ t ++ ">"]
    | none => folded.1
  String.intercalate "\n" formatted_lines

/-! ## Session-inspection endpoint (`main.py`, `get_session` route) -/

/-- How a request handler terminates abnormally: a raised `HTTPException`
or a Python name-resolution failure (`UnboundLocalError`: a function-local
name read before any assignment to it has executed). -/
inductive PyRuntimeError where
  | http_error (code : ℕ) (detail : String)
  | unbound_local (name : String)
deriving Repr, DecidableEq

/-- The JSON body of `GET /api/session/{session_id}` on the DB path
(main.py:1290-1310): session columns plus the last/total cost fields read
from the in-memory object. -/
structure GetSessionDbBody where
  session_id : String
  brand_id : ℕ
  user_id : Option ℕ
  status : String
  message_count : ℕ
  created_at : ℕ
  email_sent : Bool
  last_input_tokens : ℕ
  last_output_tokens : ℕ
  last_token_usage : ℕ
  total_input_tokens : ℕ
  total_output_tokens : ℕ
  total_tokens : ℕ
  last_input_cost : ℚ
  last_output_cost : ℚ
  last_total_cost : ℚ
  total_input_cost : ℚ
  total_output_cost : ℚ
  total_cost : ℚ
deriving Repr, DecidableEq

/-- The JSON body of the endpoint on the in-memory path (main.py:1314-1328). -/
structure GetSessionMemBody where
  session_id : String
  brand : String
  user_context : UserContext
  user_location : UserLocation
  message_count : ℕ
  created_at : ℕ
  email_sent : Bool
  last_input_tokens : ℕ
  last_output_tokens : ℕ
  last_token_usage : ℕ
  total_input_tokens : ℕ
  total_output_tokens : ℕ
  total_tokens : ℕ
deriving Repr, DecidableEq

/-- The endpoint's two response shapes. -/
inductive GetSessionBody where
  | fromDb (body : GetSessionDbBody)
  | fromMemory (body : GetSessionMemBody)
deriving Repr, DecidableEq

/-- Reading a Python local variable: `none` models a local to which no
assignment has executed on the current path, which raises
`UnboundLocalError` when read. -/
def readLocal {α : Type} (v : Option α) (name : String) :
    Except PyRuntimeError α :=
  match v with
  | some x => Except.ok x
  | none => Except.error (PyRuntimeError.unbound_local name)

/-- The DB-path body builder: every field up to the token counters comes
from `db_session`; the cost fields read the local `session`, passed here as
the `Option` state of that local at this point of the handler. -/
def buildDbBody (db_session : DbSessionRow)
    (session : Option ConversationSession) :
    Except PyRuntimeError GetSessionBody := do
  let s ← readLocal session "session"
  Except.ok (GetSessionBody.fromDb
    { session_id := db_session.session_id
      brand_id := db_session.brand_id
      user_id := db_session.user_id
      status := db_session.status
      message_count := db_session.message_count
      created_at := db_session.started_at
      email_sent := db_session.email_sent
      last_input_tokens := db_session.last_input_tokens
      last_output_tokens := db_session.last_output_tokens
      last_token_usage := db_session.last_token_usage
      total_input_tokens := db_session.total_input_tokens
      total_output_tokens := db_session.total_output_tokens
      total_tokens := db_session.total_tokens
      last_input_cost := s.last_input_cost
      last_output_cost := s.last_output_cost
      last_total_cost := s.last_total_cost
      total_input_cost := s.total_input_cost
      total_output_cost := s.total_output_cost
      total_cost := s.total_cost })

/-- `GET /api/session/{session_id}` (main.py:1280-1328).  `registry` is
`active_sessions`, `db` is `get_session_by_session_id`.  On the DB path the
body references the function-local `session`, which is assigned only by
the later in-memory path (`session = active_sessions[session_id]`), so on
the DB path the local is unassigned. -/
def get_session_endpoint (registry : String → Option ConversationSession)
    (db : String → Option DbSessionRow) (session_id : String) :
    Except PyRuntimeError GetSessionBody :=
  match registry session_id with
  | none =>
    match db session_id with
    | none => Except.error (PyRuntimeError.http_error 404 "Session not found")
    | some db_session => buildDbBody db_session none
  | some session =>
    Except.ok (GetSessionBody.fromMemory
      { session_id := session.session_id
        brand := session.brand
        user_context := session.user_context
        user_location := session.user_location
        message_count := session.conversation_history.length
        created_at := session.created_at
        email_sent := session.email_sent
        last_input_tokens := session.last_input_tokens
        last_output_tokens := session.last_output_tokens
        last_token_usage := session.last_token_usage
        total_input_tokens := session.total_input_tokens
        total_output_tokens := session.total_output_tokens
        total_tokens := session.total_input_tokens + session.total_output_tokens })

/-! ## Concrete sample values for the witnesses -/

/-- A three-turn conversation history. -/
def sampleHistory : List HistoryItem :=
  [{ role := "user", content := [{ type := "input_text", text := "hi" }] },
   { role := "assistant", content := [{ type := "output_text", text := "hello there, how can I help?" }] },
   { role := "user", content := [{ type := "input_text", text := "thanks" }] }]

/-- A session whose transcript email has already been sent. -/
def sampleSentSession : ConversationSession :=
  { defaultConversationSession "sess-sent" 0 with
    email_sent := true, conversation_history := sampleHistory }

/-- A live session (email not yet sent, three history items). -/
def sampleLiveSession : ConversationSession :=
  { defaultConversationSession "sess-live" 0 with
    conversation_history := sampleHistory }

/-- A server state with one live session registered under `"sess-live"`. -/
def sampleServerState : ServerState :=
  { active_sessions := fun sid =>
      if sid == "sess-live" then some sampleLiveSession else none
    db_ended := [] }

/-- An SMTP environment exhibiting the dispatch-then-raise path: on the
first attempt `send_message` completes but `server.quit()` then raises an
`SMTPException` (before `email_sent` is set), and the retried attempt runs
to completion — so one call dispatches two messages. -/
def cexSmtpEnv : ℕ → SmtpOutcome := fun attempt =>
  if attempt = 0 then SmtpOutcome.smtp_error true else SmtpOutcome.sent

/-- A pre-existing users-table row for an unrelated email. -/
def otherUserRow : UserRow :=
  { id := 3, email := "other@example.com", name := some "Olga", phone := none
    business_name := none, website := none, location := none
    ip_address := none, city := none, region := none, country := none
    total_conversations := 4 }

/-- Profile fields supplied on the first call. -/
def sampleUd1 : UserData :=
  ⟨some "Alice", none, some "ACME", none, some "Chennai", some "1.2.3.4",
   none, none, none⟩

/-- Profile fields supplied on the second call: some non-null, some null. -/
def sampleUd2 : UserData :=
  ⟨some "Alice B", some "+911234567890", none, some "acme.example", none,
   none, some "Chennai", none, some "IN"⟩

/-- A stored sessions-table row with nonzero totals and `email_sent` set. -/
def sampleDbRow : DbSessionRow :=
  { id := 11, session_id := "sess-db", brand_id := 2, user_id := some 5
    status := "active", message_count := 4, email_sent := true
    started_at := 100, last_input_tokens := 10, last_output_tokens := 20
    last_token_usage := 30, total_input_tokens := 40
    total_output_tokens := 50, total_tokens := 90, input_cost := 12
    output_cost := 34, total_cost := 46 }

/-! # Theorems -/

/-! ## C1, C2: cost calculator -/

/-- The half-even rounding of `n / d` is within half a unit of the exact
value: `2*n - d ≤ 2*d*halfEvenRound n d ≤ 2*n + d`. -/
theorem halfEvenRound_err (n d : ℕ) (hd : 0 < d) :
    2 * n ≤ 2 * d * halfEvenRound n d + d ∧
    2 * d * halfEvenRound n d ≤ 2 * n + d := by
  have hmod := Nat.div_add_mod n d
  have hlt : n % d < d := Nat.mod_lt _ hd
  have e1 : 2 * d * (n / d) = 2 * (d * (n / d)) := by ring
  have e2 : 2 * d * (n / d + 1) = 2 * (d * (n / d)) + 2 * d := by ring
  simp only [halfEvenRound]
  split_ifs <;> omega

/-- Rounding the exact sum differs from the sum of the roundings by at
most one unit in the last place. -/
theorem halfEvenRound_add_bounds (a b d : ℕ) (hd : 0 < d) :
    halfEvenRound (a + b) d ≤ halfEvenRound a d + halfEvenRound b d + 1 ∧
    halfEvenRound a d + halfEvenRound b d ≤ halfEvenRound (a + b) d + 1 := by
  obtain ⟨ha1, ha2⟩ := halfEvenRound_err a d hd
  obtain ⟨hb1, hb2⟩ := halfEvenRound_err b d hd
  obtain ⟨ht1, ht2⟩ := halfEvenRound_err (a + b) d hd
  have key : ∀ x y : ℕ, 2 * d * x ≤ 2 * d * y + 3 * d → x ≤ y + 1 := by
    intro x y hxy
    by_contra hc
    push_neg at hc
    have hle : 2 * d * (y + 2) ≤ 2 * d * x :=
      Nat.mul_le_mul (Nat.le_refl (2 * d)) (by omega)
    have e : 2 * d * (y + 2) = 2 * d * y + 4 * d := by ring
    omega
  have e1 : 2 * d * (halfEvenRound a d + halfEvenRound b d) =
      2 * d * halfEvenRound a d + 2 * d * halfEvenRound b d := by ring
  constructor
  · exact key _ _ (by omega)
  · exact key _ _ (by omega)

/-- C1, counterexample: with a model priced at 0.1 dollars per million
tokens for both directions and 5 input / 5 output tokens, each
per-direction cost rounds (half-even) to 0 but the returned total cost is
`0.000001`, so the total does not equal the sum of the two rounded
per-direction costs. -/
theorem calculate_token_cost_total_ne_sum_cex :
    calculate_token_cost cexModels 5 5 "m" false = (0, 0, 1) ∧
    (calculate_token_cost cexModels 5 5 "m" false).2.2 ≠
      (calculate_token_cost cexModels 5 5 "m" false).1 +
        (calculate_token_cost cexModels 5 5 "m" false).2.1 := by
  constructor <;> decide

/-- C1 (amended): for a model whose pricing row is present,
`calculate_token_cost` returns the input and output costs as the 6-decimal
half-even rounding of the exact Decimal values `tokens / 1e6 * price`, and
a total equal to the 6-decimal rounding of the exact (unrounded) total —
which can differ from the sum of the two rounded per-direction costs, by
at most one unit in the sixth decimal place. -/
theorem calculate_token_cost_quantization (models : String → Option ModelPricing)
    (pricing : ModelPricing) (input_tokens output_tokens : ℕ)
    (model_name : String) (use_cached : Bool)
    (h : models model_name = some pricing) :
    calculate_token_cost models input_tokens output_tokens model_name use_cached =
      (halfEvenRound (input_tokens * effective_input_price pricing use_cached)
         (10 ^ pricing.scale),
       halfEvenRound (output_tokens * pricing.output_price_per_million)
         (10 ^ pricing.scale),
       halfEvenRound (input_tokens * effective_input_price pricing use_cached
           + output_tokens * pricing.output_price_per_million)
         (10 ^ pricing.scale)) ∧
    (calculate_token_cost models input_tokens output_tokens model_name use_cached).2.2
      ≤ (calculate_token_cost models input_tokens output_tokens model_name use_cached).1
        + (calculate_token_cost models input_tokens output_tokens model_name use_cached).2.1
        + 1 ∧
    (calculate_token_cost models input_tokens output_tokens model_name use_cached).1
      + (calculate_token_cost models input_tokens output_tokens model_name use_cached).2.1
      ≤ (calculate_token_cost models input_tokens output_tokens model_name use_cached).2.2
        + 1 := by
  have hd : 0 < 10 ^ pricing.scale := pow_pos (by norm_num) _
  have hb := halfEvenRound_add_bounds
    (input_tokens * effective_input_price pricing use_cached)
    (output_tokens * pricing.output_price_per_million) (10 ^ pricing.scale) hd
  simp only [calculate_token_cost, h, computeCost]
  exact ⟨trivial, hb.1, hb.2⟩

/-- C1, witness: the amended theorem applied at the counterexample's
pricing environment. -/
theorem calculate_token_cost_quantization_witness :
    cexModels "m" = some cexPricing ∧
    (calculate_token_cost cexModels 5 5 "m" false).2.2
      ≤ (calculate_token_cost cexModels 5 5 "m" false).1
        + (calculate_token_cost cexModels 5 5 "m" false).2.1 + 1 :=
  ⟨rfl, (calculate_token_cost_quantization cexModels cexPricing 5 5 "m" false rfl).2.1⟩

/-- C2: when the requested model has no active pricing row,
`calculate_token_cost` falls back to the `'gpt-4.1-nano'` row; when that
row is also absent it returns exactly `(0, 0, 0)` instead of failing. -/
theorem calculate_token_cost_fallback (models : String → Option ModelPricing)
    (input_tokens output_tokens : ℕ) (model_name : String) (use_cached : Bool)
    (h : models model_name = none) :
    (∀ pricing, models "gpt-4.1-nano" = some pricing →
      calculate_token_cost models input_tokens output_tokens model_name use_cached
        = computeCost pricing input_tokens output_tokens use_cached) ∧
    (models "gpt-4.1-nano" = none →
      calculate_token_cost models input_tokens output_tokens model_name use_cached
        = (0, 0, 0)) := by
  constructor
  · intro pricing hp
    simp only [calculate_token_cost, h, hp]
  · intro hp
    simp only [calculate_token_cost, h, hp]

/-- C2, witness: the fallback theorem at a pricing table holding only the
default model, and at an empty pricing table. -/
theorem calculate_token_cost_fallback_witness :
    calculate_token_cost c2Models 3 4 "unknown-model" false
      = computeCost c2Pricing 3 4 false ∧
    calculate_token_cost (fun _ => none) 3 4 "unknown-model" false
      = (0, 0, 0) :=
  ⟨(calculate_token_cost_fallback c2Models 3 4 "unknown-model" false rfl).1
      c2Pricing rfl,
   (calculate_token_cost_fallback (fun _ => none) 3 4 "unknown-model" false rfl).2
      rfl⟩

/-! ## C3: get_or_create_user called twice -/

/-- `SELECT id FROM users WHERE email = %s` finds nothing when no row has
the email. -/
theorem find_no_email (users : List UserRow) (email : String)
    (h : ∀ r ∈ users, r.email ≠ email) :
    users.find? (fun r => r.email == email) = none := by
  induction users with
  | nil => rfl
  | cons a t ih =>
    have ha : (a.email == email) = false := by
      simp [h a (List.mem_cons_self a t)]
    simp only [List.find?, ha]
    exact ih (fun r hr => h r (List.mem_cons_of_mem a hr))

/-- The lookup finds the appended row when no earlier row has the email. -/
theorem find_append_self (users : List UserRow) (row : UserRow) (email : String)
    (h : ∀ r ∈ users, r.email ≠ email) (hrow : (row.email == email) = true) :
    (users ++ [row]).find? (fun r => r.email == email) = some row := by
  induction users with
  | nil => simp [List.find?, hrow]
  | cons a t ih =>
    have ha : (a.email == email) = false := by
      simp [h a (List.mem_cons_self a t)]
    simp only [List.cons_append, List.find?, ha]
    exact ih (fun r hr => h r (List.mem_cons_of_mem a hr))

/-- The `UPDATE ... WHERE id = %s` touches no row whose id differs. -/
theorem map_update_fresh (users : List UserRow) (next_id : ℕ) (ud : UserData)
    (h : ∀ r ∈ users, r.id ≠ next_id) :
    users.map (fun row => if row.id == next_id then updateUserRow row ud else row)
      = users := by
  induction users with
  | nil => rfl
  | cons a t ih =>
    have ha : (a.id == next_id) = false := by
      simp [h a (List.mem_cons_self a t)]
    simp only [List.map_cons, ha, Bool.false_eq_true, if_false]
    rw [ih (fun r hr => h r (List.mem_cons_of_mem a hr))]

/-- Filtering by the email keeps only the appended row. -/
theorem filter_email_append (users : List UserRow) (row : UserRow)
    (email : String) (h : ∀ r ∈ users, r.email ≠ email)
    (hrow : (row.email == email) = true) :
    (users ++ [row]).filter (fun r => r.email == email) = [row] := by
  induction users with
  | nil => simp [List.filter, hrow]
  | cons a t ih =>
    have ha : (a.email == email) = false := by
      simp [h a (List.mem_cons_self a t)]
    simp only [List.cons_append, List.filter, ha]
    exact ih (fun r hr => h r (List.mem_cons_of_mem a hr))

/-- C3: two `get_or_create_user` calls with the same email against a table
holding no row for it (and no row with the id MySQL will assign) leave the
other rows untouched and exactly one row for that email: the second call's
non-null fields overwrite the first call's values, its null fields leave
them untouched (`COALESCE`), `total_conversations` is 1 on insert and 2
after the second call, and both calls return the same user id. -/
theorem get_or_create_user_twice (users : List UserRow) (next_id : ℕ)
    (email : String) (ud1 ud2 : UserData) (next_id2 : ℕ)
    (hemail : ∀ r ∈ users, r.email ≠ email)
    (hid : ∀ r ∈ users, r.id ≠ next_id) :
    (get_or_create_user users next_id email ud1).1 = next_id ∧
    (get_or_create_user (get_or_create_user users next_id email ud1).2
        next_id2 email ud2).1 = next_id ∧
    (get_or_create_user (get_or_create_user users next_id email ud1).2
        next_id2 email ud2).2
      = users ++ [{ id := next_id, email := email
                    name := coalesce ud2.name ud1.name
                    phone := coalesce ud2.phone ud1.phone
                    business_name := coalesce ud2.business_name ud1.business_name
                    website := coalesce ud2.website ud1.website
                    location := coalesce ud2.location ud1.location
                    ip_address := coalesce ud2.ip_address ud1.ip_address
                    city := coalesce ud2.city ud1.city
                    region := coalesce ud2.region ud1.region
                    country := coalesce ud2.country ud1.country
                    total_conversations := 2 }] ∧
    ((get_or_create_user (get_or_create_user users next_id email ud1).2
        next_id2 email ud2).2).filter (fun r => r.email == email)
      = [{ id := next_id, email := email
           name := coalesce ud2.name ud1.name
           phone := coalesce ud2.phone ud1.phone
           business_name := coalesce ud2.business_name ud1.business_name
           website := coalesce ud2.website ud1.website
           location := coalesce ud2.location ud1.location
           ip_address := coalesce ud2.ip_address ud1.ip_address
           city := coalesce ud2.city ud1.city
           region := coalesce ud2.region ud1.region
           country := coalesce ud2.country ud1.country
           total_conversations := 2 }] := by
  have h1 : get_or_create_user users next_id email ud1
      = (next_id, users ++ [insertUserRow next_id email ud1]) := by
    simp only [get_or_create_user, find_no_email users email hemail]
  have h2find : (users ++ [insertUserRow next_id email ud1]).find?
      (fun r => r.email == email) = some (insertUserRow next_id email ud1) :=
    find_append_self users _ email hemail (by simp [insertUserRow])
  have hmap : (users ++ [insertUserRow next_id email ud1]).map
      (fun row => if row.id == next_id then updateUserRow row ud2 else row)
      = users ++ [updateUserRow (insertUserRow next_id email ud1) ud2] := by
    rw [List.map_append, map_update_fresh users next_id ud2 hid]
    simp [insertUserRow]
  have h2 : get_or_create_user (users ++ [insertUserRow next_id email ud1])
      next_id2 email ud2
      = (next_id, users ++ [updateUserRow (insertUserRow next_id email ud1) ud2]) := by
    unfold get_or_create_user
    rw [h2find]
    show (next_id, (users ++ [insertUserRow next_id email ud1]).map
        (fun row => if row.id == next_id then updateUserRow row ud2 else row))
      = (next_id, users ++ [updateUserRow (insertUserRow next_id email ud1) ud2])
    rw [hmap]
  have hrow : updateUserRow (insertUserRow next_id email ud1) ud2
      = { id := next_id, email := email
          name := coalesce ud2.name ud1.name
          phone := coalesce ud2.phone ud1.phone
          business_name := coalesce ud2.business_name ud1.business_name
          website := coalesce ud2.website ud1.website
          location := coalesce ud2.location ud1.location
          ip_address := coalesce ud2.ip_address ud1.ip_address
          city := coalesce ud2.city ud1.city
          region := coalesce ud2.region ud1.region
          country := coalesce ud2.country ud1.country
          total_conversations := 2 } := rfl
  refine ⟨by rw [h1], ?_, ?_, ?_⟩
  · simp only [h1, h2]
  · simp only [h1, h2, hrow]
  · simp only [h1, h2, hrow]
    exact filter_email_append users _ email hemail (by simp)

/-- C3, witness: the upsert theorem at a one-row table and concrete
profile data. -/
theorem get_or_create_user_twice_witness :
    (get_or_create_user [otherUserRow] 5 "alice@example.com" sampleUd1).1 = 5 ∧
    (get_or_create_user
        (get_or_create_user [otherUserRow] 5 "alice@example.com" sampleUd1).2
        9 "alice@example.com" sampleUd2).1 = 5 ∧
    (get_or_create_user
        (get_or_create_user [otherUserRow] 5 "alice@example.com" sampleUd1).2
        9 "alice@example.com" sampleUd2).2
      = [otherUserRow]
        ++ [{ id := 5, email := "alice@example.com"
              name := coalesce sampleUd2.name sampleUd1.name
              phone := coalesce sampleUd2.phone sampleUd1.phone
              business_name := coalesce sampleUd2.business_name sampleUd1.business_name
              website := coalesce sampleUd2.website sampleUd1.website
              location := coalesce sampleUd2.location sampleUd1.location
              ip_address := coalesce sampleUd2.ip_address sampleUd1.ip_address
              city := coalesce sampleUd2.city sampleUd1.city
              region := coalesce sampleUd2.region sampleUd1.region
              country := coalesce sampleUd2.country sampleUd1.country
              total_conversations := 2 }] ∧
    ((get_or_create_user
        (get_or_create_user [otherUserRow] 5 "alice@example.com" sampleUd1).2
        9 "alice@example.com" sampleUd2).2).filter
        (fun r => r.email == "alice@example.com")
      = [{ id := 5, email := "alice@example.com"
           name := coalesce sampleUd2.name sampleUd1.name
           phone := coalesce sampleUd2.phone sampleUd1.phone
           business_name := coalesce sampleUd2.business_name sampleUd1.business_name
           website := coalesce sampleUd2.website sampleUd1.website
           location := coalesce sampleUd2.location sampleUd1.location
           ip_address := coalesce sampleUd2.ip_address sampleUd1.ip_address
           city := coalesce sampleUd2.city sampleUd1.city
           region := coalesce sampleUd2.region sampleUd1.region
           country := coalesce sampleUd2.country sampleUd1.country
           total_conversations := 2 }] :=
  get_or_create_user_twice [otherUserRow] 5 "alice@example.com" sampleUd1
    sampleUd2 9 (by decide) (by decide)

/-! ## C5: message ordinal assignment -/

/-- `foldr max 0` bounds every element of a list of naturals. -/
theorem le_foldr_max (l : List ℕ) : ∀ x ∈ l, x ≤ l.foldr max 0 := by
  induction l with
  | nil => simp
  | cons a t ih =>
    intro x hx
    rcases List.mem_cons.mp hx with h | h
    · simp [h, le_max_left]
    · exact le_trans (ih x h) (by simp [le_max_right])

/-- `foldr max 0` of a non-empty list of naturals is one of its elements. -/
theorem foldr_max_mem (l : List ℕ) (h : l ≠ []) : l.foldr max 0 ∈ l := by
  induction l with
  | nil => exact absurd rfl h
  | cons a t ih =>
    cases t with
    | nil => simp
    | cons b t2 =>
      rcases max_choice a ((b :: t2).foldr max 0) with hm | hm
      · rw [List.foldr_cons, hm]
        exact List.mem_cons_self _ _
      · rw [List.foldr_cons, hm]
        exact List.mem_cons_of_mem _ (ih (by simp))

/-- C5: `add_message_with_cost` appends a single row for the session whose
ordinal is strictly above every existing ordinal of that session; it is
exactly 1 when the session has no messages, and `max + 1` of the session's
existing ordinals otherwise (`COALESCE(MAX(message_order), 0) + 1`). -/
theorem add_message_with_cost_ordinal (models : String → Option ModelPricing)
    (messages : List MessageRow) (session_id : ℕ) (role content : String)
    (formatted_content : Option String) (content_type : String)
    (file_name : Option String) (file_size : Option ℕ)
    (input_tokens output_tokens : ℕ) (model_name : String) :
    ∃ m : MessageRow,
      add_message_with_cost models messages session_id role content
          formatted_content content_type file_name file_size input_tokens
          output_tokens model_name = messages ++ [m] ∧
      m.session_id = session_id ∧
      (∀ m2 ∈ messages, m2.session_id = session_id →
        m2.message_order < m.message_order) ∧
      (messages.filter (fun m2 => m2.session_id == session_id) = [] →
        m.message_order = 1) ∧
      (messages.filter (fun m2 => m2.session_id == session_id) ≠ [] →
        ∃ m2 ∈ messages.filter (fun m2 => m2.session_id == session_id),
          m.message_order = m2.message_order + 1) := by
  refine ⟨_, rfl, rfl, ?_, ?_, ?_⟩
  · intro m2 hm2 hsid
    have hmem : m2.message_order ∈
        (messages.filter (fun m3 => m3.session_id == session_id)).map
          (fun m3 => m3.message_order) :=
      List.mem_map_of_mem _ (List.mem_filter.mpr ⟨hm2, by simp [hsid]⟩)
    have := le_foldr_max _ _ hmem
    simp only [add_message_with_cost, next_message_order]
    omega
  · intro hempty
    simp only [add_message_with_cost, next_message_order, hempty, List.map_nil,
      List.foldr_nil]
  · intro hne
    have hmapne :
        (messages.filter (fun m2 => m2.session_id == session_id)).map
          (fun m2 => m2.message_order) ≠ [] := by
      simpa using hne
    have hmem := foldr_max_mem _ hmapne
    rcases List.mem_map.mp hmem with ⟨m2, hm2, heq⟩
    refine ⟨m2, hm2, ?_⟩
    simp only [add_message_with_cost, next_message_order]
    omega

/-! ## C4: email idempotence -/

/-- C4: once a session's `email_sent` flag is true, `send_conversation_email`
returns `True` immediately: no SMTP attempt is performed (empty attempt
trace), nothing is dispatched, and the session is unchanged — on every
environment, i.e. on every execution path of the routine. -/
theorem send_conversation_email_idempotent (session : ConversationSession)
    (env : ℕ → SmtpOutcome) (h : session.email_sent = true) :
    send_conversation_email session env = (true, [], session) ∧
    dispatch_count (send_conversation_email session env).2.1 = 0 := by
  simp [send_conversation_email, h, dispatch_count]

/-- C4, witness: the idempotence theorem at a concrete already-sent session
and an environment whose every attempt would succeed. -/
theorem send_conversation_email_idempotent_witness :
    send_conversation_email sampleSentSession (fun _ => SmtpOutcome.sent)
      = (true, [], sampleSentSession) ∧
    dispatch_count
      (send_conversation_email sampleSentSession (fun _ => SmtpOutcome.sent)).2.1
      = 0 :=
  send_conversation_email_idempotent sampleSentSession (fun _ => SmtpOutcome.sent) rfl

/-! ## C7: teardown invoked twice -/

/-- Each SMTP attempt puts at most one message on the wire. -/
theorem outcome_dispatches_le_one (outcome : SmtpOutcome) :
    outcome_dispatches outcome ≤ 1 := by
  cases outcome <;> simp [outcome_dispatches] <;> split_ifs <;> simp

/-- The retry loop performs at most `remaining` attempts, each dispatching
at most one message. -/
theorem email_retry_loop_dispatch_le (env : ℕ → SmtpOutcome)
    (attempt remaining : ℕ) :
    dispatch_count (email_retry_loop env attempt remaining).2 ≤ remaining := by
  induction remaining generalizing attempt with
  | zero => simp [email_retry_loop, dispatch_count]
  | succ n ih =>
    simp only [email_retry_loop]
    cases henv : env attempt with
    | sent => simp [dispatch_count, outcome_dispatches]
    | auth_error dispatched =>
      have := outcome_dispatches_le_one (SmtpOutcome.auth_error dispatched)
      simp only [dispatch_count, List.map_cons, List.map_nil, List.sum_cons,
        List.sum_nil]
      omega
    | smtp_error dispatched =>
      have h1 := outcome_dispatches_le_one (SmtpOutcome.smtp_error dispatched)
      split_ifs with hn
      · have h2 := ih (attempt + 1)
        simp only [dispatch_count, List.map_cons, List.sum_cons] at h2 ⊢
        omega
      · simp only [dispatch_count, List.map_cons, List.map_nil, List.sum_cons,
          List.sum_nil]
        omega
    | other_error dispatched =>
      have h1 := outcome_dispatches_le_one (SmtpOutcome.other_error dispatched)
      split_ifs with hn
      · have h2 := ih (attempt + 1)
        simp only [dispatch_count, List.map_cons, List.sum_cons] at h2 ⊢
        omega
      · simp only [dispatch_count, List.map_cons, List.map_nil, List.sum_cons,
          List.sum_nil]
        omega

/-- When every attempt that dispatches also completes cleanly (no exception
between `send_message` and the flag update), the loop stops at its first
dispatch, so it dispatches at most one message. -/
theorem email_retry_loop_clean_dispatch_le_one (env : ℕ → SmtpOutcome)
    (hclean : ∀ k, smtp_clean (env k) = true) (attempt remaining : ℕ) :
    dispatch_count (email_retry_loop env attempt remaining).2 ≤ 1 := by
  induction remaining generalizing attempt with
  | zero => simp [email_retry_loop, dispatch_count]
  | succ n ih =>
    simp only [email_retry_loop]
    cases henv : env attempt with
    | sent => simp [dispatch_count, outcome_dispatches]
    | auth_error dispatched =>
      have hd : dispatched = false := by
        have := hclean attempt
        rw [henv] at this
        simpa [smtp_clean] using this
      simp [dispatch_count, outcome_dispatches, hd]
    | smtp_error dispatched =>
      have hd : dispatched = false := by
        have := hclean attempt
        rw [henv] at this
        simpa [smtp_clean] using this
      split_ifs with hn
      · have h2 := ih (attempt + 1)
        simp only [dispatch_count, List.map_cons, List.sum_cons,
          outcome_dispatches, hd, Bool.false_eq_true, if_false] at h2 ⊢
        omega
      · simp [dispatch_count, outcome_dispatches, hd]
    | other_error dispatched =>
      have hd : dispatched = false := by
        have := hclean attempt
        rw [henv] at this
        simpa [smtp_clean] using this
      split_ifs with hn
      · have h2 := ih (attempt + 1)
        simp only [dispatch_count, List.map_cons, List.sum_cons,
          outcome_dispatches, hd, Bool.false_eq_true, if_false] at h2 ⊢
        omega
      · simp [dispatch_count, outcome_dispatches, hd]

/-- One call to `send_conversation_email` makes at most `max_retries = 3`
attempts, so it dispatches at most three messages. -/
theorem send_conversation_email_dispatch_le_three
    (session : ConversationSession) (env : ℕ → SmtpOutcome) :
    dispatch_count (send_conversation_email session env).2.1 ≤ 3 := by
  by_cases h : session.email_sent
  · simp [send_conversation_email, h, dispatch_count]
  · simp only [send_conversation_email, h, Bool.false_eq_true, if_false]
    exact email_retry_loop_dispatch_le env 0 3

/-- One call to `send_conversation_email` dispatches at most one message
when no attempt raises after its `send_message` has completed. -/
theorem send_conversation_email_clean_dispatch_le_one
    (session : ConversationSession) (env : ℕ → SmtpOutcome)
    (hclean : ∀ k, smtp_clean (env k) = true) :
    dispatch_count (send_conversation_email session env).2.1 ≤ 1 := by
  by_cases h : session.email_sent
  · simp [send_conversation_email, h, dispatch_count]
  · simp only [send_conversation_email, h, Bool.false_eq_true, if_false]
    exact email_retry_loop_clean_dispatch_le_one env hclean 0 3

/-- `end_session` on a session id absent from the live registry: the
already-ended result, no state change, nothing dispatched. -/
theorem end_session_already_ended (st : ServerState) (sid : String)
    (env : ℕ → SmtpOutcome) (h : st.active_sessions sid = none) :
    end_session st sid env =
      ({ status := "success", email_sent := false
         message := "Session already ended" }, st, 0) := by
  simp [end_session, h]

/-- `end_session` on a live session: at most three emails dispatched (one
per SMTP attempt; at most one when no attempt raises after its dispatch),
the session removed from the registry, and the ended session recorded in
the database with the email outcome the response reports. -/
theorem end_session_live (st : ServerState) (sid : String)
    (session : ConversationSession) (env : ℕ → SmtpOutcome)
    (h : st.active_sessions sid = some session) :
    (end_session st sid env).2.2 ≤ 3 ∧
    ((∀ k, smtp_clean (env k) = true) → (end_session st sid env).2.2 ≤ 1) ∧
    ((end_session st sid env).2.1).active_sessions sid = none ∧
    ((end_session st sid env).2.1).db_ended
      = st.db_ended ++ [(session.session_id, (end_session st sid env).1.email_sent)] := by
  simp only [end_session, h]
  by_cases hlen : session.conversation_history.length < 3
  · simp only [if_pos hlen]
    exact ⟨by simp, fun _ => by simp, by simp, by simp⟩
  · simp only [if_neg hlen]
    exact ⟨send_conversation_email_dispatch_le_three session env,
      fun hclean => send_conversation_email_clean_dispatch_le_one session env hclean,
      by simp, by simp⟩

/-- C7, counterexample: with the dispatch-then-raise environment
(`send_message` succeeds, `server.quit()` raises an `SMTPException` before
`email_sent` is set, the retried attempt completes) the first teardown
call dispatches two messages over SMTP, refuting "the first call sends at
most one email". -/
theorem end_session_first_call_two_dispatches_cex :
    (end_session sampleServerState "sess-live" cexSmtpEnv).2.2 = 2 ∧
    ¬ (end_session sampleServerState "sess-live" cexSmtpEnv).2.2 ≤ 1 := by
  constructor <;> decide

/-- C7 (amended): ending the same session twice: the first call makes at
most `max_retries = 3` SMTP attempts and dispatches at most one message
per attempt — so at most three messages, and at most one whenever no
attempt raises after its `send_message` has completed —, removes the
session from the registry and records the ended session in the database
with the email outcome it reports; the second call finds no live session,
returns the `"Session already ended"` result with `email_sent = false`,
dispatches nothing and leaves the state unchanged. -/
theorem end_session_twice (st : ServerState) (sid : String)
    (session : ConversationSession) (env1 env2 : ℕ → SmtpOutcome)
    (h : st.active_sessions sid = some session) :
    (end_session st sid env1).2.2 ≤ 3 ∧
    ((∀ k, smtp_clean (env1 k) = true) → (end_session st sid env1).2.2 ≤ 1) ∧
    ((end_session st sid env1).2.1).active_sessions sid = none ∧
    ((end_session st sid env1).2.1).db_ended
      = st.db_ended ++ [(session.session_id, (end_session st sid env1).1.email_sent)] ∧
    (end_session (end_session st sid env1).2.1 sid env2).1
      = { status := "success", email_sent := false
          message := "Session already ended" } ∧
    (end_session (end_session st sid env1).2.1 sid env2).2.2 = 0 ∧
    (end_session (end_session st sid env1).2.1 sid env2).2.1
      = (end_session st sid env1).2.1 := by
  obtain ⟨h1, h1c, h2, h3⟩ := end_session_live st sid session env1 h
  have h4 := end_session_already_ended _ sid env2 h2
  refine ⟨h1, h1c, h2, h3, ?_, ?_, ?_⟩ <;> rw [h4]

/-- C7, witness: the teardown theorem at a concrete one-session state. -/
theorem end_session_twice_witness :
    (end_session sampleServerState "sess-live" (fun _ => SmtpOutcome.sent)).2.2 ≤ 3 ∧
    ((∀ k : ℕ, smtp_clean ((fun _ : ℕ => SmtpOutcome.sent) k) = true) →
      (end_session sampleServerState "sess-live" (fun _ => SmtpOutcome.sent)).2.2 ≤ 1) ∧
    ((end_session sampleServerState "sess-live" (fun _ => SmtpOutcome.sent)).2.1).active_sessions
        "sess-live" = none ∧
    ((end_session sampleServerState "sess-live" (fun _ => SmtpOutcome.sent)).2.1).db_ended
      = sampleServerState.db_ended
        ++ [(sampleLiveSession.session_id,
             (end_session sampleServerState "sess-live" (fun _ => SmtpOutcome.sent)).1.email_sent)] ∧
    (end_session
        (end_session sampleServerState "sess-live" (fun _ => SmtpOutcome.sent)).2.1
        "sess-live" (fun _ => SmtpOutcome.sent)).1
      = { status := "success", email_sent := false
          message := "Session already ended" } ∧
    (end_session
        (end_session sampleServerState "sess-live" (fun _ => SmtpOutcome.sent)).2.1
        "sess-live" (fun _ => SmtpOutcome.sent)).2.2 = 0 ∧
    (end_session
        (end_session sampleServerState "sess-live" (fun _ => SmtpOutcome.sent)).2.1
        "sess-live" (fun _ => SmtpOutcome.sent)).2.1
      = (end_session sampleServerState "sess-live" (fun _ => SmtpOutcome.sent)).2.1 :=
  end_session_twice sampleServerState "sess-live" sampleLiveSession
    (fun _ => SmtpOutcome.sent) (fun _ => SmtpOutcome.sent) rfl

/-! ## C6: chat retry and canned fallback -/

/-- The canned fallback message of either brand is itself at least 10
characters long. -/
theorem fallback_response_long (brand : String) :
    10 ≤ (fallback_response brand).length := by
  have h1 : 10 ≤ ("Thank you for your message. I\x27m here to help you with PPC advertising and digital marketing services from ").length := by
    decide
  have h2 : 10 ≤ ("Thank you for your message. I\x27m here to help you with Google Business Profile optimization from ").length := by
    decide
  unfold fallback_response
  split_ifs with h
  · rw [String.length_append, String.length_append]
    omega
  · rw [String.length_append, String.length_append]
    omega

/-- C6: an extracted response shorter than 10 characters on the first
attempt causes exactly one retry (two agent invocations in all, and the
retry's text is the loop's result); a first response of 10 or more
characters is kept with a single invocation; and whenever the loop's final
text is still shorter than 10 characters (in particular when empty) the
handler substitutes the brand's canned fallback message, so the returned
text is never shorter than 10 characters. -/
theorem chat_retry_and_fallback (texts : ℕ → String) (brand : String) :
    ((texts 0).length < 10 → chat_response_loop texts = (texts 1, 2)) ∧
    (10 ≤ (texts 0).length → chat_response_loop texts = (texts 0, 1)) ∧
    ((chat_response_loop texts).1.length < 10 →
      chat_final_response brand texts = fallback_response brand) ∧
    10 ≤ (chat_final_response brand texts).length := by
  refine ⟨?_, ?_, ?_, ?_⟩
  · intro h
    simp [chat_response_loop, h]
  · intro h
    simp [chat_response_loop, Nat.not_lt.mpr h]
  · intro h
    simp [chat_final_response, h]
  · by_cases h : (chat_response_loop texts).1.length < 10
    · have : chat_final_response brand texts = fallback_response brand := by
        simp [chat_final_response, h]
      rw [this]
      exact fallback_response_long brand
    · have hne : ¬(chat_response_loop texts).1 = "" := by
        intro he
        rw [he] at h
        exact h (by decide)
      have : chat_final_response brand texts = (chat_response_loop texts).1 := by
        simp [chat_final_response, h, hne]
      rw [this]
      omega

/-! ## C8: markdown-to-HTML transform -/

/-- C8: on the spec's test vector the transform yields the paragraph with
bold-wrapped `x`, then an unordered list of exactly the two items `a` and
`b` (the trailing blank line renders as `<br>`); a digit-dot block becomes
an ordered list, a `*`-led line an unordered item, and a plain non-blank
line a paragraph. -/
theorem format_markdown_to_html_cases :
    format_markdown_to_html "**x** and\n- a\n- b\n"
      = "<p><strong>x</strong> and</p>\n<ul>\n<li>a</li>\n<li>b</li>\n</ul>\n<br>" ∧
    format_markdown_to_html "1. a\n2. b" = "<ol>\n<li>a</li>\n<li>b</li>\n</ol>" ∧
    format_markdown_to_html "* c" = "<ul>\n<li>c</li>\n</ul>" ∧
    format_markdown_to_html "hello world" = "<p>hello world</p>" := by
  refine ⟨?_, ?_, ?_, ?_⟩ <;> rfl

/-! ## C9: session-inspection endpoint on the DB path -/

/-- C9: for a session id absent from the in-memory registry but present in
storage, `GET /api/session/{session_id}` raises instead of answering: the
DB-path body reads the local `session`, which is never assigned on that
path, so the handler ends in an `UnboundLocalError` for every such
request. -/
theorem get_session_db_path_unbound
    (registry : String → Option ConversationSession)
    (db : String → Option DbSessionRow) (session_id : String)
    (row : DbSessionRow) (h1 : registry session_id = none)
    (h2 : db session_id = some row) :
    get_session_endpoint registry db session_id =
      Except.error (PyRuntimeError.unbound_local "session") := by
  simp only [get_session_endpoint, h1, h2]
  rfl

/-- C9, witness: the endpoint theorem at an empty registry and a storage
holding one session row. -/
theorem get_session_db_path_unbound_witness :
    get_session_endpoint (fun _ => none)
      (fun sid => if sid == "sess-db" then some sampleDbRow else none)
      "sess-db"
      = Except.error (PyRuntimeError.unbound_local "session") :=
  get_session_db_path_unbound (fun _ => none)
    (fun sid => if sid == "sess-db" then some sampleDbRow else none)
    "sess-db" sampleDbRow rfl rfl

/-! ## C10: rehydration carries defaults, not stored totals -/

/-- C10: a session rehydrated from storage restores only the identifiers,
brand, user linkage and the replayed messages; its cumulative token and
cost counters are the zero defaults and `email_sent` is false, whatever
the stored row's totals and `email_sent` say. -/
theorem rehydrate_session_defaults (session_id brand : String)
    (db_session : DbSessionRow) (messages : List MessageRow) (now : ℕ) :
    (rehydrate_session session_id brand db_session messages now).session_id
        = session_id ∧
    (rehydrate_session session_id brand db_session messages now).session_db_id
        = some db_session.id ∧
    (rehydrate_session session_id brand db_session messages now).brand = brand ∧
    (rehydrate_session session_id brand db_session messages now).brand_id
        = some db_session.brand_id ∧
    (rehydrate_session session_id brand db_session messages now).user_id
        = db_session.user_id ∧
    (rehydrate_session session_id brand db_session messages now).conversation_history
        = messages.map replayMessage ∧
    (rehydrate_session session_id brand db_session messages now).total_input_tokens
        = 0 ∧
    (rehydrate_session session_id brand db_session messages now).total_output_tokens
        = 0 ∧
    (rehydrate_session session_id brand db_session messages now).total_input_cost
        = 0 ∧
    (rehydrate_session session_id brand db_session messages now).total_output_cost
        = 0 ∧
    (rehydrate_session session_id brand db_session messages now).total_cost = 0 ∧
    (rehydrate_session session_id brand db_session messages now).email_sent
        = false := by
  simp [rehydrate_session, defaultConversationSession]

end ChatkitAgent
